import Mathlib

/-!
Verification development for the rbrew register-access core.

Part 1 embeds `src/lib/rbrew-gc/src/gfx/video.rs` (the capability gate):
the process-wide `IS_INIT` flag becomes an explicit `VideoState` record
threaded through each operation, augmented with an instrumentation counter
`initVideoCalls` counting invocations of the underlying `init_video`
routine.  `panic!` in `VideoContext::global` is modelled as the
`GlobalOutcome.panic` outcome.

Part 2 embeds `src/shared/rbrew-shared-macros/src/iotype.rs` (the
register-map compiler): the schema data model (`IoField`, `IoTypeItem`),
the token-level parser (`parseIoField` and friends, mirroring the `syn`
based `Parse` impls), and the code generator `iotype2`.  A `panic` /
`assert!` in the procedural macro aborts compilation, so both parse errors
and the alignment `assert!` are modelled as `Except.error`; a generated
accessor module is the `Except.ok` payload, so an error output emits no
accessors.  Generated items are modelled structurally by `FieldFns`
(emitted names, pointer address `base + offset`, pointer mutability, which
operations exist, and the name of the `Self::...` function each emitted
read/write body calls).
-/

/-! ## Part 1: the capability gate (video.rs) -/

inductive VideoInitError where
  | alreadyInitialized
deriving DecidableEq, Repr

structure VideoState where
  isInit : Bool
  initVideoCalls : Nat
deriving DecidableEq, Repr

/-- The process start state: `IS_INIT` is `false`, `init_video` has never run. -/
def initialState : VideoState := { isInit := false, initVideoCalls := 0 }

structure VideoContext where
deriving DecidableEq, Repr

structure Framebuffer where
deriving DecidableEq, Repr

/-- `Framebuffer::init` from video.rs: returns `Ok(())`. -/
def Framebuffer.init : Except VideoInitError Unit := .ok ()

/-- `VideoContext::init_video`: `Framebuffer::init()?; Ok(())`. -/
def VideoContext.init_video : Except VideoInitError Unit :=
  Framebuffer.init.bind fun _ => .ok ()

/-- `VideoContext::init`, literally as written in video.rs: when the flag
reads `true` it stores `true` and runs `init_video` (the instrumentation
counter records that invocation); when the flag reads `false` it returns
`Err(AlreadyInitialized)` without touching the flag. -/
def VideoContext.init (s : VideoState) : VideoState × Except VideoInitError Unit :=
  if s.isInit then
    ({ isInit := true, initVideoCalls := s.initVideoCalls + 1 }, VideoContext.init_video)
  else
    (s, .error .alreadyInitialized)

/-- `VideoContext::global_unchecked`: manufactures the token. -/
def VideoContext.global_unchecked : VideoContext := {}

inductive GlobalOutcome where
  | token (t : VideoContext)
  | panic
deriving DecidableEq, Repr

/-- The `match` in `VideoContext::global`: `Err(AlreadyInitialized) | Ok(_)`
fall through to `global_unchecked()`; any other error hits
`panic!("video failed to initialize")`. -/
def VideoContext.globalDispatch : Except VideoInitError Unit → GlobalOutcome
  | .ok _ => .token VideoContext.global_unchecked
  | .error e =>
    if e = VideoInitError.alreadyInitialized then .token VideoContext.global_unchecked
    else .panic

/-- `VideoContext::global`: calls `init`, dispatches on its result. -/
def VideoContext.global (s : VideoState) : VideoState × GlobalOutcome :=
  let p := VideoContext.init s
  (p.1, VideoContext.globalDispatch p.2)

/-- `VideoContext::frambuffer` (sic): derives a framebuffer token from a
video-context token; takes no state and cannot fail. -/
def VideoContext.frambuffer (_t : VideoContext) : Framebuffer := {}

/-- The state-affecting entry points of the gate, for trace reasoning. -/
inductive VideoOp where
  | init
  | global
  | global_unchecked
deriving DecidableEq, Repr

def VideoOp.run (op : VideoOp) (s : VideoState) : VideoState :=
  match op with
  | .init => (VideoContext.init s).1
  | .global => (VideoContext.global s).1
  | .global_unchecked => s

def runOps : List VideoOp → VideoState → VideoState
  | [], s => s
  | op :: rest, s => runOps rest (op.run s)

/-- Outcomes of `n` successive calls to `VideoContext::global`. -/
def globalOutcomes : Nat → VideoState → List GlobalOutcome
  | 0, _ => []
  | n + 1, s =>
    let p := VideoContext.global s
    p.2 :: globalOutcomes n p.1

/-! ## Part 2: the register-map compiler (iotype.rs) -/

inductive Primitive where
  | u8
  | u16
  | u32
  | u64
deriving DecidableEq, Repr

/-- `Primitive::align` from iotype.rs; it doubles as the width in bytes of
the primitive, since each width is naturally aligned. -/
def Primitive.align : Primitive → Nat
  | .u8 => 1
  | .u16 => 2
  | .u32 => 4
  | .u64 => 8

structure IoField where
  ident : String
  writable : Bool
  primitive : Primitive
  offset : Nat
deriving DecidableEq, Repr

structure IoTypeItem where
  ident : String
  base_adr : Nat
  len : Nat
  body : List IoField
deriving DecidableEq, Repr

/-- The alignment test of iotype.rs, verbatim:
`(base_adr + offset) & (align - 1) == 0`. -/
def fieldAligned (base_adr : Nat) (f : IoField) : Bool :=
  ((base_adr + f.offset) &&& (f.primitive.align - 1)) == 0

/-- Structural model of the items `iotype2` generates for one field: the
emitted names are `<name>_ptr`, `<name>_read` and, iff writable,
`<name>_write`; the pointer function returns the literal `base + offset`,
typed `*mut` iff the field is writable; the read and write bodies each
call `Self::<readCallee>()` / `Self::<writeCallee>()` — in the source the
callee is the bare field ident (`Self::#ident()`), recorded here as is. -/
structure FieldFns where
  name : String
  ptrAddr : Nat
  ptrMut : Bool
  ty : Primitive
  hasRead : Bool
  hasWrite : Bool
  readCallee : String
  writeCallee : Option String
deriving DecidableEq, Repr

structure AccessorModule where
  ident : String
  base : Nat
  len : Nat
  fns : List FieldFns
deriving DecidableEq, Repr

/-- Per-field step of `iotype2`: the `assert!((base_adr + offset) & (align - 1) == 0,
"unaligned IO register")` aborts compilation (modelled as `Except.error`);
otherwise the accessor items for the field are produced. -/
def compileField (base_adr : Nat) (f : IoField) : Except String FieldFns :=
  if fieldAligned base_adr f then
    .ok { name := f.ident
        , ptrAddr := base_adr + f.offset
        , ptrMut := f.writable
        , ty := f.primitive
        , hasRead := true
        , hasWrite := f.writable
        , readCallee := f.ident
        , writeCallee := if f.writable then some f.ident else none }
  else
    .error "unaligned IO register"

/-- `iotype2` maps `compileField` over the fields of the schema; the first
failing assertion aborts the whole compilation (all-or-nothing). -/
def compileFields (base_adr : Nat) : List IoField → Except String (List FieldFns)
  | [] => .ok []
  | f :: rest =>
    match compileField base_adr f with
    | .error e => .error e
    | .ok fn => (compileFields base_adr rest).map (fn :: ·)

/-- `iotype2`, post-parse: checks the alignment of every field and emits the
accessor module `{ BASE, LEN, ptr, per-field items }`. -/
def iotype2 (item : IoTypeItem) : Except String AccessorModule :=
  (compileFields item.base_adr item.body).map fun fns =>
    { ident := item.ident, base := item.base_adr, len := item.len, fns := fns }

/-- The function names `iotype2` emits for one field, in emission order. -/
def FieldFns.emittedNames (fn : FieldFns) : List String :=
  [fn.name ++ "_ptr", fn.name ++ "_read"] ++
    (if fn.hasWrite then [fn.name ++ "_write"] else [])

/-- All function names of the generated `impl` block: the block-level
`ptr()` plus the emitted items of every field. -/
def AccessorModule.fnNames (m : AccessorModule) : List String :=
  "ptr" :: (m.fns.map FieldFns.emittedNames).flatten

/-! ### The token-level schema parser

Proc-macro input is a token stream in which a braced block is a single
group token; `syn::braced!` extracts the content of the group, so an
`iotype!` invocation is modelled as a header token list plus the token
list inside the braces.  `litOther` stands for a literal token that is
not an integer literal (a malformed numeric literal position). -/

inductive Token where
  | ident (s : String)
  | colon
  | eqTok
  | comma
  | kwType
  | kwMut
  | kwConst
  | kwPub
  | litInt (v : Nat)
  | litOther
deriving DecidableEq, Repr

def pow64 : Nat := 2 ^ 64

def parsePrimitive : String → Option Primitive
  | "u8" => some .u8
  | "u16" => some .u16
  | "u32" => some .u32
  | "u64" => some .u64
  | _ => none

/-- The rest of a field after its mutability tag: a width ident drawn
from `u8/u16/u32/u64` (else the "expected either u8 ..." error), `=`, and
an integer literal that must fit in a `u64`
(`base10_parse::<u64>().expect(..)` aborts otherwise). -/
def parseIoFieldTail (name : String) (writable : Bool) :
    List Token → Except String (IoField × List Token)
  | .ident ty :: rest =>
    match parsePrimitive ty with
    | none => .error ("expected either u8, u16, u32 or u64. Got " ++ ty)
    | some p =>
      match rest with
      | .eqTok :: .litInt v :: rest2 =>
        if v < pow64 then
          .ok ({ ident := name, writable := writable, primitive := p, offset := v }, rest2)
        else
          .error "unable to cast offset to a u64"
      | .eqTok :: _ => .error "expected integer literal"
      | _ => .error "expected ="
  | _ => .error "expected identifier"

/-- `impl Parse for IoField`, check for check: ident, `:`, then `mut` or
`const` (else the "expected either mut or const" error), then the width
and offset via `parseIoFieldTail`. -/
def parseIoField : List Token → Except String (IoField × List Token)
  | .ident name :: .colon :: rest =>
    match rest with
    | .kwMut :: rest2 => parseIoFieldTail name true rest2
    | .kwConst :: rest2 => parseIoFieldTail name false rest2
    | _ => .error "expected either mut or const before a field type."
  | .ident _ :: _ => .error "expected :"
  | _ => .error "expected identifier"

/-- `Punctuated::<IoField, Token![,]>::parse_terminated`: a comma-separated
field list, trailing comma allowed.  Each successful field consumes at
least one token, so fuel equal to the input length never runs out. -/
def parseFields : Nat → List Token → Except String (List IoField)
  | _, [] => .ok []
  | 0, _ :: _ => .error "out of fuel"
  | fuel + 1, ts =>
    match parseIoField ts with
    | .error e => .error e
    | .ok (f, rest) =>
      match rest with
      | [] => .ok [f]
      | .comma :: rest2 => (parseFields fuel rest2).map (f :: ·)
      | _ => .error "expected comma"

def parseItemHeader (header inner : List Token) : Except String IoTypeItem :=
  match header with
  | .kwType :: .ident n :: .colon :: .litInt b :: .comma :: .litInt l :: [] =>
    if b < pow64 then
      if l < pow64 then
        (parseFields inner.length inner).map fun fs =>
          { ident := n, base_adr := b, len := l, body := fs }
      else .error "failed to convert length to u64"
    else .error "failed to convert base address to u64"
  | _ => .error "failed to parse IO item"

/-- `impl Parse for IoTypeItem`: optional visibility, `type`, the type
name, `:`, base address, `,`, length, then the braced field list. -/
def parseIoTypeItem (header inner : List Token) : Except String IoTypeItem :=
  match header with
  | .kwPub :: rest => parseItemHeader rest inner
  | rest => parseItemHeader rest inner

/-- The whole macro: `syn::parse(ts).expect(..)` (abort on parse failure)
followed by `iotype2`; an `Except.error` output emits no accessor module,
so every malformed schema is rejected before any program runs. -/
def compileIoType (header inner : List Token) : Except String AccessorModule :=
  match parseIoTypeItem header inner with
  | .error e => .error e
  | .ok item => iotype2 item

/-! ### Concrete schemas

`vi_item` is the VI schema from video.rs; `ex_item`/`ex_module` is the
worked example of the spec, `base=0x1000, len=0x10, f: mut u32 @ 0x04`, and
its compiled module; `mis_item` is the misaligned example of the spec (a
32-bit field at offset 0x02 from a 4-byte-aligned base). -/

def vi_item : IoTypeItem :=
  { ident := "VI", base_adr := 0xcc002000, len := 0x100
  , body :=
    [ { ident := "vtr", writable := true, primitive := .u16, offset := 0x00 }
    , { ident := "dcr", writable := true, primitive := .u16, offset := 0x02 }
    , { ident := "htro", writable := true, primitive := .u32, offset := 0x04 }
    , { ident := "htr1", writable := true, primitive := .u32, offset := 0x08 }
    , { ident := "vto", writable := true, primitive := .u32, offset := 0x0c }
    , { ident := "vte", writable := true, primitive := .u32, offset := 0x10 }
    , { ident := "bbei", writable := true, primitive := .u32, offset := 0x14 }
    , { ident := "bboi", writable := true, primitive := .u32, offset := 0x18 }
    , { ident := "tfbl", writable := true, primitive := .u32, offset := 0x1c }
    , { ident := "tfbr", writable := true, primitive := .u32, offset := 0x20 }
    , { ident := "bfbl", writable := true, primitive := .u32, offset := 0x24 }
    , { ident := "bfbr", writable := true, primitive := .u32, offset := 0x28 }
    , { ident := "dpv", writable := false, primitive := .u16, offset := 0x2c }
    , { ident := "dph", writable := false, primitive := .u16, offset := 0x2e }
    , { ident := "di0", writable := true, primitive := .u32, offset := 0x30 }
    , { ident := "di1", writable := true, primitive := .u32, offset := 0x34 }
    , { ident := "di2", writable := true, primitive := .u32, offset := 0x38 }
    , { ident := "di3", writable := true, primitive := .u32, offset := 0x3c }
    , { ident := "dl0", writable := true, primitive := .u32, offset := 0x40 }
    , { ident := "dl1", writable := true, primitive := .u32, offset := 0x44 }
    , { ident := "hsw", writable := true, primitive := .u16, offset := 0x48 }
    , { ident := "hsr", writable := true, primitive := .u16, offset := 0x4a }
    , { ident := "fct0", writable := true, primitive := .u32, offset := 0x4c }
    , { ident := "fct1", writable := true, primitive := .u32, offset := 0x50 }
    ] }

def ex_item : IoTypeItem :=
  { ident := "T", base_adr := 0x1000, len := 0x10
  , body := [ { ident := "f", writable := true, primitive := .u32, offset := 0x04 } ] }

def ex_module : AccessorModule :=
  { ident := "T", base := 0x1000, len := 0x10
  , fns :=
    [ { name := "f", ptrAddr := 0x1004, ptrMut := true, ty := .u32
      , hasRead := true, hasWrite := true
      , readCallee := "f", writeCallee := some "f" } ] }

def mis_item : IoTypeItem :=
  { ident := "T", base_adr := 0x1000, len := 0x10
  , body := [ { ident := "f", writable := true, primitive := .u32, offset := 0x02 } ] }

def ex2_item : IoTypeItem :=
  { ident := "U", base_adr := 0x2000, len := 0x8
  , body :=
    [ { ident := "r", writable := false, primitive := .u16, offset := 0x02 }
    , { ident := "w", writable := true, primitive := .u8, offset := 0x05 } ] }

def ex2_module : AccessorModule :=
  { ident := "U", base := 0x2000, len := 0x8
  , fns :=
    [ { name := "r", ptrAddr := 0x2002, ptrMut := false, ty := .u16
      , hasRead := true, hasWrite := false, readCallee := "r", writeCallee := none }
    , { name := "w", ptrAddr := 0x2005, ptrMut := true, ty := .u8
      , hasRead := true, hasWrite := true, readCallee := "w", writeCallee := some "w" } ] }

/-! ## Helper lemmas -/

theorem VideoOp.run_of_uninit (op : VideoOp) (s : VideoState) (h : s.isInit = false) :
    op.run s = s := by
  cases op <;>
    simp [VideoOp.run, VideoContext.global, VideoContext.init, h]

theorem runOps_of_uninit (ops : List VideoOp) (s : VideoState) (h : s.isInit = false) :
    runOps ops s = s := by
  induction ops with
  | nil => rfl
  | cons op rest ih =>
    rw [runOps, VideoOp.run_of_uninit op s h, ih]

theorem global_snd (s : VideoState) :
    (VideoContext.global s).2 = GlobalOutcome.token VideoContext.global_unchecked := by
  unfold VideoContext.global VideoContext.init
  cases s.isInit <;>
    simp [VideoContext.globalDispatch, VideoContext.init_video, Framebuffer.init, Except.bind]

theorem compileField_ok (b : Nat) (f : IoField) (fn : FieldFns)
    (h : compileField b f = .ok fn) :
    fn.name = f.ident ∧ fn.ptrAddr = b + f.offset ∧ fn.ptrMut = f.writable ∧
      fn.ty = f.primitive ∧ fn.hasRead = true ∧ fn.hasWrite = f.writable := by
  unfold compileField at h
  split at h
  · cases h
    exact ⟨rfl, rfl, rfl, rfl, rfl, rfl⟩
  · cases h

theorem compileFields_spec (b : Nat) :
    ∀ (l : List IoField) (fns : List FieldFns),
      compileFields b l = .ok fns →
      List.Forall₂ (fun fn f => compileField b f = .ok fn) fns l := by
  intro l
  induction l with
  | nil =>
    intro fns h
    cases h
    exact .nil
  | cons f rest ih =>
    intro fns h
    unfold compileFields at h
    cases hc : compileField b f with
    | error e => rw [hc] at h; cases h
    | ok fn =>
      rw [hc] at h
      cases hr : compileFields b rest with
      | error e => rw [hr] at h; cases h
      | ok fns' =>
        rw [hr] at h
        cases h
        exact .cons hc (ih fns' hr)

theorem compileFields_ok_iff (b : Nat) (l : List IoField) :
    (∃ fns, compileFields b l = .ok fns) ↔ ∀ f ∈ l, fieldAligned b f = true := by
  induction l with
  | nil => simp [compileFields]
  | cons f rest ih =>
    unfold compileFields
    constructor
    · rintro ⟨fns, h⟩
      cases hc : compileField b f with
      | error e => rw [hc] at h; cases h
      | ok fn =>
        rw [hc] at h
        cases hr : compileFields b rest with
        | error e => rw [hr] at h; cases h
        | ok fns' =>
          intro g hg
          have hrest := ih.mp ⟨fns', hr⟩
          have hal : fieldAligned b f = true := by
            by_contra hf
            simp only [Bool.not_eq_true] at hf
            unfold compileField at hc
            rw [hf] at hc
            cases hc
          rw [List.mem_cons] at hg
          rcases hg with rfl | hg
          · exact hal
          · exact hrest g hg
    · intro hall
      have hal : fieldAligned b f = true := hall f (List.mem_cons_self f rest)
      obtain ⟨fns', hr⟩ : ∃ fns, compileFields b rest = .ok fns :=
        ih.mpr fun g hg => hall g (List.mem_cons_of_mem f hg)
      cases hc : compileField b f with
      | error e =>
        unfold compileField at hc
        rw [hal] at hc
        cases hc
      | ok fn =>
        refine ⟨fn :: fns', ?_⟩
        rw [hr]
        rfl

theorem iotype2_ok_iff (item : IoTypeItem) :
    (∃ m, iotype2 item = .ok m) ↔
      ∃ fns, compileFields item.base_adr item.body = .ok fns := by
  unfold iotype2
  cases h : compileFields item.base_adr item.body <;> simp [Except.map]

theorem iotype2_ok_fns (item : IoTypeItem) (m : AccessorModule)
    (h : iotype2 item = .ok m) :
    compileFields item.base_adr item.body = .ok m.fns := by
  unfold iotype2 at h
  cases hc : compileFields item.base_adr item.body with
  | error e => rw [hc] at h; cases h
  | ok fns => rw [hc] at h; cases h; rfl

/-! ## Claim theorems -/

/-- Claim C1 (code bug in the source): the very first call to
`VideoContext::init`, in the process start state, is claimed to succeed
and invoke `init_video` exactly once; the code as written instead returns
`Err(AlreadyInitialized)`, leaves `IS_INIT` false, and never invokes
`init_video` (its branch condition is inverted). This theorem evaluates
the embedded code at that failing input. -/
theorem C1_first_init_call_fails :
    VideoContext.init initialState
        = (initialState, Except.error VideoInitError.alreadyInitialized) ∧
    (VideoContext.init initialState).1.initVideoCalls = 0 ∧
    (VideoContext.init initialState).1.isInit = false :=
  ⟨rfl, rfl, rfl⟩

/-- Claim C4: `VideoContext::global` returns a capability token on every
one of any number of successive calls, from any state; the dispatch on
the result of `init` treats `AlreadyInitialized` as success (the remaining
dispatch branch, reached by no other value, is the fatal panic). -/
theorem C4_global_always_returns_token :
    (∀ (n : Nat) (s : VideoState),
        ((globalOutcomes n s).all
          fun o => o == GlobalOutcome.token VideoContext.global_unchecked) = true) ∧
    VideoContext.globalDispatch (Except.error VideoInitError.alreadyInitialized)
        = GlobalOutcome.token VideoContext.global_unchecked := by
  constructor
  · intro n
    induction n with
    | zero => intro s; rfl
    | succ k ih =>
      intro s
      simp only [globalOutcomes, List.all_cons]
      rw [global_snd s, ih (VideoContext.global s).1]
      rfl
  · rfl

/-- Claim C5: `VideoContext::frambuffer` is a pure, infallible, total
function of the parent token alone (it does not consult `VideoState`, the
embedding of the `IS_INIT` flag), and any two parent tokens yield
interchangeable (equal) framebuffer sub-tokens. -/
theorem C5_frambuffer_pure :
    (∀ t₁ t₂ : VideoContext,
        VideoContext.frambuffer t₁ = VideoContext.frambuffer t₂) ∧
    (∀ t : VideoContext, VideoContext.frambuffer t = Framebuffer.mk) :=
  ⟨fun _ _ => rfl, fun _ => rfl⟩

/-- Claim C9: starting from the process start state, no sequence of
`init` / `global` / `global_unchecked` calls ever makes `IS_INIT` true,
and `init_video` is never invoked: the store of `true` sits in the branch
that already observed the flag `true`. -/
theorem C9_flag_never_set :
    ∀ ops : List VideoOp,
      (runOps ops initialState).isInit = false ∧
      (runOps ops initialState).initVideoCalls = 0 := by
  intro ops
  rw [runOps_of_uninit ops initialState rfl]
  exact ⟨rfl, rfl⟩

/-- Claim C10: the fatal `panic!` branch of `VideoContext::global` is
unreachable — `VideoInitError` has exactly one variant, which the
dispatch maps to success — so `global` returns a token in every state. -/
theorem C10_global_never_panics :
    (∀ r : Except VideoInitError Unit,
        (VideoContext.globalDispatch r == GlobalOutcome.panic) = false) ∧
    (∀ s : VideoState,
        (VideoContext.global s).2 = GlobalOutcome.token VideoContext.global_unchecked) := by
  constructor
  · intro r
    cases r with
    | ok u => rfl
    | error e => cases e; rfl
  · exact global_snd

/-- Claim C2: `iotype2` emits an accessor module exactly when every field
passes the alignment assert, and aborts with the "unaligned IO register"
error otherwise; the bitmask test `(base + offset) & (align - 1) == 0`
agrees with `(base + offset) % width_bytes == 0` because each width has a
byte count that is a power of two; the misaligned example of the spec (a 32-bit
field at offset 0x02 from a 4-byte-aligned base) is rejected. -/
theorem C2_alignment_gate :
    (∀ item : IoTypeItem,
        (∃ m, iotype2 item = Except.ok m) ↔
          ∀ f ∈ item.body, fieldAligned item.base_adr f = true) ∧
    (∀ (x : Nat) (p : Primitive),
        ((x &&& (p.align - 1)) == 0) = ((x % p.align) == 0)) ∧
    iotype2 mis_item = Except.error "unaligned IO register" := by
  refine ⟨?_, ?_, rfl⟩
  · intro item
    rw [iotype2_ok_iff]
    exact compileFields_ok_iff item.base_adr item.body
  · intro x p
    cases p
    · show ((x &&& (1 - 1)) == 0) = ((x % 1) == 0)
      rw [Nat.and_zero, Nat.mod_one]
    · show ((x &&& (2 - 1)) == 0) = ((x % 2) == 0)
      have h : x &&& (2 - 1) = x % 2 := Nat.and_pow_two_sub_one_eq_mod x 1
      rw [h]
    · show ((x &&& (4 - 1)) == 0) = ((x % 4) == 0)
      have h : x &&& (4 - 1) = x % 4 := Nat.and_pow_two_sub_one_eq_mod x 2
      rw [h]
    · show ((x &&& (8 - 1)) == 0) = ((x % 8) == 0)
      have h : x &&& (8 - 1) = x % 8 := Nat.and_pow_two_sub_one_eq_mod x 3
      rw [h]

/-- Witness for C2: the VI schema of video.rs, whose fields are all
naturally aligned, compiles to a module. -/
theorem C2_alignment_gate_witness : ∃ m, iotype2 vi_item = Except.ok m :=
  (C2_alignment_gate.1 vi_item).mpr (by decide)

/-- Claim C3: in every module `iotype2` emits, the pointer
function of each field returns exactly `base_address + offset`; on the worked
example `base=0x1000, f: mut u32 @ 0x04` the pointer is 0x1004. -/
theorem C3_ptr_is_base_plus_offset :
    (∀ (item : IoTypeItem) (m : AccessorModule), iotype2 item = Except.ok m →
        List.Forall₂ (fun fn f => fn.ptrAddr = item.base_adr + f.offset)
          m.fns item.body) ∧
    (iotype2 ex_item).map (fun m => m.fns.map FieldFns.ptrAddr)
        = Except.ok [0x1004] := by
  constructor
  · intro item m h
    have hf := compileFields_spec item.base_adr item.body m.fns (iotype2_ok_fns item m h)
    exact hf.imp fun _fn _f hfn => (compileField_ok _ _ _ hfn).2.1
  · rfl

/-- Witness for C3: the general part applied to the worked example. -/
theorem C3_ptr_is_base_plus_offset_witness :
    List.Forall₂ (fun fn f => fn.ptrAddr = ex_item.base_adr + f.offset)
      ex_module.fns ex_item.body :=
  C3_ptr_is_base_plus_offset.1 ex_item ex_module rfl

/-- Claim C6: in every module `iotype2` emits, a field gets a write
operation iff it is writable, always gets a read operation, and its
pointer operation is mutably typed iff the field is writable. -/
theorem C6_emission_shape :
    ∀ (item : IoTypeItem) (m : AccessorModule), iotype2 item = Except.ok m →
      List.Forall₂
        (fun fn f => fn.hasWrite = f.writable ∧ fn.hasRead = true ∧
          fn.ptrMut = f.writable)
        m.fns item.body := by
  intro item m h
  have hf := compileFields_spec item.base_adr item.body m.fns (iotype2_ok_fns item m h)
  exact hf.imp fun _fn _f hfn =>
    ⟨(compileField_ok _ _ _ hfn).2.2.2.2.2, (compileField_ok _ _ _ hfn).2.2.2.2.1,
      (compileField_ok _ _ _ hfn).2.2.1⟩

/-- Witness for C6: a two-field schema with one read-only and one
writable field. -/
theorem C6_emission_shape_witness :
    List.Forall₂
      (fun fn f => fn.hasWrite = f.writable ∧ fn.hasRead = true ∧
        fn.ptrMut = f.writable)
      ex2_module.fns ex2_item.body :=
  C6_emission_shape ex2_item ex2_module rfl

/-- Claim C7: schema text that misses the mutability tag, uses a width
token outside u8/u16/u32/u64, or has a non-integer token in the offset
position is rejected by the parser with the corresponding syntax error,
and through the whole macro pipeline no accessor module is produced —
these are compile-time failures, before any generated code can run. -/
theorem C7_syntax_errors :
    (∀ (name ty : String) (rest : List Token),
        parseIoField (.ident name :: .colon :: .ident ty :: rest)
          = .error "expected either mut or const before a field type.") ∧
    (∀ (name ty : String) (rest : List Token), parsePrimitive ty = none →
        parseIoField (.ident name :: .colon :: .kwMut :: .ident ty :: rest)
          = .error ("expected either u8, u16, u32 or u64. Got " ++ ty)) ∧
    (∀ (name : String) (rest : List Token),
        parseIoField
            (.ident name :: .colon :: .kwMut :: .ident "u32" :: .eqTok :: .litOther :: rest)
          = .error "expected integer literal") ∧
    compileIoType [.kwType, .ident "T", .colon, .litInt 0x1000, .comma, .litInt 0x10]
        [.ident "f", .colon, .ident "u32", .eqTok, .litInt 4]
      = .error "expected either mut or const before a field type." := by
  refine ⟨fun name ty rest => rfl, ?_, fun name rest => rfl, rfl⟩
  intro name ty rest h
  simp [parseIoField, parseIoFieldTail, h]

/-- Witness for C7: the unknown width token i32 is rejected. -/
theorem C7_syntax_errors_witness :
    parseIoField
        [Token.ident "f", Token.colon, Token.kwMut, Token.ident "i32",
          Token.eqTok, Token.litInt 4]
      = Except.error ("expected either u8, u16, u32 or u64. Got " ++ "i32") :=
  C7_syntax_errors.2.1 "f" "i32" [Token.eqTok, Token.litInt 4] rfl

/-- Claim C8 (code bug in the source): the write-then-read round trip
cannot hold, because the read and write bodies `iotype2` emits call
`Self::f()` (the bare field ident) while the macro only ever emits
`f_ptr`, `f_read` and `f_write` — the generated module references a
function that does not exist, instead of going through the derived
pointer. This theorem evaluates the generator on the worked
example and exhibits the dangling callee. -/
theorem C8_read_write_callee_missing :
    iotype2 ex_item = Except.ok ex_module ∧
    ex_module.fns.map FieldFns.readCallee = ["f"] ∧
    ex_module.fns.map FieldFns.writeCallee = [some "f"] ∧
    ex_module.fnNames = ["ptr", "f_ptr", "f_read", "f_write"] ∧
    ex_module.fnNames.contains "f" = false :=
  ⟨rfl, rfl, rfl, rfl, rfl⟩
